/-
Verification of the PhysicsFS Windows platform backend (`src/platform_windows.c`)
against its natural-language specification.

The C file is shallowly embedded: each native (Win32) call is modelled by an
explicit environment record describing that call's outcome (return value,
`GetLastError()` code, allocation success), and each `__PHYSFS_platform*`
function becomes a pure Lean function from such an environment to its result,
following the source's control flow line by line.  Machine integers are `Nat`
with explicit bounds where they matter (`DWORD` values are `< 2^32`).  The
process-wide single-slot error state (`__PHYSFS_setError`) is threaded as an
explicit `Option PhysfsErr` value.
-/
import Mathlib

namespace PhysfsWin

/-! ## Constants from the source -/

/-- `#define PHYSFS_INVALID_SET_FILE_POINTER 0xFFFFFFFF` (platform_windows.c:36). -/
def PHYSFS_INVALID_SET_FILE_POINTER : Nat := 0xFFFFFFFF

/-- Win32 `NO_ERROR`. -/
def NO_ERROR : Nat := 0

/-- Win32 `ERROR_FILE_NOT_FOUND`. -/
def ERROR_FILE_NOT_FOUND : Nat := 2

/-- Win32 `ERROR_PATH_NOT_FOUND`. -/
def ERROR_PATH_NOT_FOUND : Nat := 3

/-- Win32 `FILE_ATTRIBUTE_DIRECTORY`. -/
def FILE_ATTRIBUTE_DIRECTORY : Nat := 0x10

/-- Win32 `FILE_ATTRIBUTE_OFFLINE`. -/
def FILE_ATTRIBUTE_OFFLINE : Nat := 0x1000

/-- Win32 `FILE_ATTRIBUTE_DEVICE`. -/
def FILE_ATTRIBUTE_DEVICE : Nat := 0x40

/-- Win32 `FILE_ATTRIBUTE_READONLY`. -/
def FILE_ATTRIBUTE_READONLY : Nat := 0x1

/-- Win32 `FILE_ATTRIBUTE_REPARSE_POINT`. -/
def FILE_ATTRIBUTE_REPARSE_POINT : Nat := 0x400

/-- `#define PHYSFS_IO_REPARSE_TAG_SYMLINK 0xA000000C` (platform_windows.c:42). -/
def PHYSFS_IO_REPARSE_TAG_SYMLINK : Nat := 0xA000000C

/-! ## The single-slot error state

`BAIL_MACRO(err, v)` records a message in the process-wide error slot and
returns `v`.  The possible messages in this file are `ERR_OUT_OF_MEMORY`,
`ERR_INVALID_ARGUMENT`, and `winApiStrErrorByNum(code)`; we model the slot's
content symbolically. -/

/-- A recorded PhysicsFS error message: the out-of-memory string, the
invalid-argument string, or the formatted Windows message for a native error
code (`winApiStrErrorByNum`). -/
inductive PhysfsErr where
  | outOfMemory
  | invalidArgument
  | winApi (code : Nat)
deriving DecidableEq

/-! ## Encoding bridge (spec-modelled)

`PHYSFS_utf8ToUcs2` / `PHYSFS_utf8FromUcs2` live in `physfs_unicode.c`, which
is not among the provided sources; only their call sites
(`UTF8_TO_UNICODE_STACK_MACRO`, `unicodeToUtf8Heap`) are.  They are therefore
modelled from the spec (§4.1): a conversion between the narrow UTF-8 byte
encoding and the native 16-bit wide encoding such that every narrow string
representable in the wide encoding round-trips. -/

/-- Modelled from the spec: `PHYSFS_utf8ToUcs2` (physfs_unicode.c, not under
src/) decodes a UTF-8 byte string into 16-bit wide code units.  `none` means
the input is not representable in the wide encoding (ill-formed UTF-8, or a
code point above `0xFFFF`); byte strings in the function's domain are exactly
the spec's "narrow strings representable in the native wide encoding". -/
def PHYSFS_utf8ToUcs2 : List Nat → Option (List Nat)
  | [] => some []
  | b :: rest =>
    if b < 0x80 then
      (PHYSFS_utf8ToUcs2 rest).map (fun w => b :: w)
    else
      match rest with
      | [] => none
      | b2 :: rest2 =>
        if 0xC2 ≤ b ∧ b < 0xE0 ∧ 0x80 ≤ b2 ∧ b2 < 0xC0 then
          (PHYSFS_utf8ToUcs2 rest2).map
            (fun w => ((b - 0xC0) * 64 + (b2 - 0x80)) :: w)
        else
          match rest2 with
          | [] => none
          | b3 :: rest3 =>
            if 0xE0 ≤ b ∧ b < 0xF0 ∧ 0x80 ≤ b2 ∧ b2 < 0xC0 ∧
               0x80 ≤ b3 ∧ b3 < 0xC0 ∧ (b = 0xE0 → 0xA0 ≤ b2) then
              (PHYSFS_utf8ToUcs2 rest3).map
                (fun w => ((b - 0xE0) * 4096 + (b2 - 0x80) * 64 + (b3 - 0x80)) :: w)
            else none

/-- Modelled from the spec: the UTF-8 encoding of one wide (16-bit) code unit,
one to three bytes. -/
def ucs2CharToUtf8 (c : Nat) : List Nat :=
  if c < 0x80 then [c]
  else if c < 0x800 then [0xC0 + c / 64, 0x80 + c % 64]
  else [0xE0 + c / 4096, 0x80 + (c / 64) % 64, 0x80 + c % 64]

/-- Modelled from the spec: `PHYSFS_utf8FromUcs2` (physfs_unicode.c, not under
src/) encodes a wide string back into UTF-8 bytes. -/
def PHYSFS_utf8FromUcs2 : List Nat → List Nat
  | [] => []
  | c :: rest => ucs2CharToUtf8 c ++ PHYSFS_utf8FromUcs2 rest

/-- `UTF8_TO_UNICODE_STACK_MACRO` (platform_windows.c:45-54): a NULL narrow
input yields a NULL wide output; otherwise a stack buffer of
`(strlen(str)+1)*2` bytes, i.e. `strlen(str)+1` wide code units, is allocated
and filled by `PHYSFS_utf8ToUcs2`.  A `none` result stands for either a NULL
input or an unrepresentable string. -/
def UTF8_TO_UNICODE_STACK_MACRO : Option (List Nat) → Option (List Nat)
  | none => none
  | some str => PHYSFS_utf8ToUcs2 str

/-- `unicodeToUtf8Heap` (platform_windows.c:69-85): a NULL wide input yields a
NULL narrow output (`retval` stays NULL); otherwise a heap buffer of
`wStrLen(w_str)*4 + 1` bytes is filled by `PHYSFS_utf8FromUcs2` and shrunk to
the exact converted length.  `mallocOk` models the `allocator.Malloc` outcome;
on failure the function bails with `ERR_OUT_OF_MEMORY` and returns NULL. -/
def unicodeToUtf8Heap (w : Option (List Nat)) (mallocOk : Bool) :
    Option (List Nat) × Option PhysfsErr :=
  match w with
  | none => (none, none)
  | some wstr =>
    if mallocOk then (some (PHYSFS_utf8FromUcs2 wstr), none)
    else (none, some PhysfsErr.outOfMemory)

/-! ## File handle operations: tell / length (platform_windows.c:621-667) -/

/-- Outcome of one native split-32-bit query (`SetFilePointer` with a
high-order out-parameter for `__PHYSFS_platformTell`, `GetFileSize` for
`__PHYSFS_platformFileLength`): the low 32 bits returned, the high 32 bits
written through the pointer, and the `GetLastError()` value observed right
after the call.  `DWORD` values are below `2^32`. -/
structure SplitQuery where
  low : Nat
  high : Nat
  lastError : Nat
deriving DecidableEq

/-- `__PHYSFS_platformTell` (platform_windows.c:621-643).
`LowPos = SetFilePointer(Handle, 0, &HighPos, FILE_CURRENT)`; if the low word
is the invalid marker AND `GetLastError() != NO_ERROR` the function bails with
the native message and `-1`; otherwise
`retval = ((PHYSFS_uint64) HighPos << 32) | LowPos`.  Returns the
`PHYSFS_sint64` result paired with the error slot after the call. -/
def __PHYSFS_platformTell (q : SplitQuery) (errIn : Option PhysfsErr) :
    Int × Option PhysfsErr :=
  if q.low = PHYSFS_INVALID_SET_FILE_POINTER ∧ q.lastError ≠ NO_ERROR then
    (-1, some (PhysfsErr.winApi q.lastError))
  else
    (Int.ofNat ((q.high <<< 32) ||| q.low), errIn)

/-- `__PHYSFS_platformFileLength` (platform_windows.c:646-667).
`SizeLow = GetFileSize(Handle, &SizeHigh)`; same invalid-marker/last-error
test as `tell`, same `(high << 32) | low` reconstruction. -/
def __PHYSFS_platformFileLength (q : SplitQuery) (errIn : Option PhysfsErr) :
    Int × Option PhysfsErr :=
  if q.low = PHYSFS_INVALID_SET_FILE_POINTER ∧ q.lastError ≠ NO_ERROR then
    (-1, some (PhysfsErr.winApi q.lastError))
  else
    (Int.ofNat ((q.high <<< 32) ||| q.low), errIn)

/-! ## File handle operations: read / write (platform_windows.c:554-580) -/

/-- Modelled from the spec: `__PHYSFS_ui64FitsAddressSpace` is declared in
`physfs_internal.h`, which is not among the provided sources.  The spec (§4.3,
§8) says a length exceeding the native 32-bit addressable maximum must be
rejected with an invalid-argument error, and the source comments at
platform_windows.c:554 and :568 state the functions fail for
`len > 0xFFFFFFFF`. -/
def __PHYSFS_ui64FitsAddressSpace (len : Nat) : Bool :=
  len ≤ 0xFFFFFFFF

/-- Outcome of one native transfer call (`ReadFile` / `WriteFile`): success
flag, byte count written through the out-parameter, and the `GetLastError()`
code on failure. -/
structure XferNative where
  ok : Bool
  count : Nat
  lastError : Nat
deriving DecidableEq

/-- Result of `__PHYSFS_platformRead` / `__PHYSFS_platformWrite`: the
`PHYSFS_sint64` return value, how many native transfer calls were made, how
many bytes the native layer transferred, and the error slot after the call. -/
structure XferResult where
  retval : Int
  nativeCalls : Nat
  transferred : Nat
  err : Option PhysfsErr
deriving DecidableEq

/-- `__PHYSFS_platformRead` (platform_windows.c:555-565): bail with
`ERR_INVALID_ARGUMENT` and `-1` before any `ReadFile` call when the length
does not fit the address space; otherwise one `ReadFile` call, bailing with
the native message on failure, else returning the byte count read. -/
def __PHYSFS_platformRead (n : XferNative) (len : Nat) (errIn : Option PhysfsErr) :
    XferResult :=
  if ¬ __PHYSFS_ui64FitsAddressSpace len then
    ⟨-1, 0, 0, some PhysfsErr.invalidArgument⟩
  else if ¬ n.ok then
    ⟨-1, 1, 0, some (PhysfsErr.winApi n.lastError)⟩
  else
    ⟨Int.ofNat n.count, 1, n.count, errIn⟩

/-- `__PHYSFS_platformWrite` (platform_windows.c:569-580): identical structure
to `__PHYSFS_platformRead` with `WriteFile` as the native call. -/
def __PHYSFS_platformWrite (n : XferNative) (len : Nat) (errIn : Option PhysfsErr) :
    XferResult :=
  if ¬ __PHYSFS_ui64FitsAddressSpace len then
    ⟨-1, 0, 0, some PhysfsErr.invalidArgument⟩
  else if ¬ n.ok then
    ⟨-1, 1, 0, some (PhysfsErr.winApi n.lastError)⟩
  else
    ⟨Int.ofNat n.count, 1, n.count, errIn⟩

/-! ## File handle operations: open (platform_windows.c:495-551) -/

/-- The `WinApiFile` struct (platform_windows.c:88-92): the native handle is
left abstract; the `readonly` flag is the `rdonly` argument of `doOpen`. -/
structure WinApiFile where
  readonly : Bool
deriving DecidableEq

/-- Resource events emitted by the open path, in program order:
`CreateFileW` success, `CloseHandle`, `allocator.Malloc` of the `WinApiFile`
struct, `allocator.Free` of it, and the `SetFilePointer(..., FILE_END)` call
of `__PHYSFS_platformOpenAppend`. -/
inductive OpenEv where
  | createFile
  | closeHandle
  | mallocStruct
  | freeStruct
  | seekEnd
deriving DecidableEq

/-- Native outcomes driving `doOpen` / `__PHYSFS_platformOpenAppend`:
`wconvOk` is the `UTF8_TO_UNICODE_STACK_MACRO` allocation, `createOk` the
`CreateFileW` call (with `createErr` its `GetLastError()` on failure),
`mallocOk` the `WinApiFile` allocation, `seekEndRc` the `DWORD` returned by
the append path's `SetFilePointer` (with `seekErr` its `GetLastError()`). -/
structure OpenEnv where
  wconvOk : Bool
  createOk : Bool
  createErr : Nat
  mallocOk : Bool
  seekEndRc : Nat
  seekErr : Nat
deriving DecidableEq

/-- `doOpen` (platform_windows.c:495-519): convert the filename (bail
`ERR_OUT_OF_MEMORY` on NULL), `CreateFileW` (bail with the native message on
`INVALID_HANDLE_VALUE`), allocate the `WinApiFile` struct — on allocation
failure `CloseHandle(fileh)` then bail `ERR_OUT_OF_MEMORY` — else fill and
return it.  Result: the returned pointer, the resource-event trace, and the
error slot. -/
def doOpen (env : OpenEnv) (rdonly : Bool) :
    Option WinApiFile × List OpenEv × Option PhysfsErr :=
  if ¬ env.wconvOk then
    (none, [], some PhysfsErr.outOfMemory)
  else if ¬ env.createOk then
    (none, [], some (PhysfsErr.winApi env.createErr))
  else if ¬ env.mallocOk then
    (none, [OpenEv.createFile, OpenEv.closeHandle], some PhysfsErr.outOfMemory)
  else
    (some ⟨rdonly⟩, [OpenEv.createFile, OpenEv.mallocStruct], none)

/-- `__PHYSFS_platformOpenAppend` (platform_windows.c:534-551):
`doOpen(filename, GENERIC_WRITE, OPEN_ALWAYS, 0)`; on success,
`SetFilePointer(h, 0, NULL, FILE_END)` — if it returns the invalid marker,
capture `winApiStrError()`, `CloseHandle(h)`, `allocator.Free(retval)`, and
bail with the captured message and NULL. -/
def __PHYSFS_platformOpenAppend (env : OpenEnv) :
    Option WinApiFile × List OpenEv × Option PhysfsErr :=
  match doOpen env false with
  | (none, tr, e) => (none, tr, e)
  | (some f, tr, e) =>
    if env.seekEndRc = PHYSFS_INVALID_SET_FILE_POINTER then
      (none, tr ++ [OpenEv.seekEnd, OpenEv.closeHandle, OpenEv.freeStruct],
       some (PhysfsErr.winApi env.seekErr))
    else
      (some f, tr ++ [OpenEv.seekEnd], e)

/-- Every native file handle opened along a trace was closed again, and every
`WinApiFile` struct allocated was freed again. -/
def openResourcesReleased (tr : List OpenEv) : Bool :=
  (tr.count OpenEv.createFile == tr.count OpenEv.closeHandle) &&
  (tr.count OpenEv.mallocStruct == tr.count OpenEv.freeStruct)

/-! ## Stat resolver (platform_windows.c:771-815) -/

/-- `PHYSFS_FileType` (physfs.h vocabulary used by the source). -/
inductive PHYSFS_FileType where
  | regular
  | directory
  | symlink
  | other
deriving DecidableEq

/-- The `PHYSFS_Stat` record as filled by `__PHYSFS_platformStat`. -/
structure PHYSFS_Stat where
  filesize : Int
  modtime : Int
  accesstime : Int
  createtime : Int
  filetype : PHYSFS_FileType
  readonly : Bool
deriving DecidableEq

/-- Native outcomes driving `__PHYSFS_platformStat`: the filename conversion
allocation, the `GetFileAttributesExW` success flag with its `GetLastError()`
code on failure, the `WIN32_FILE_ATTRIBUTE_DATA` fields the claims read
(`dwFileAttributes`, the two size halves), and the three already-converted
`FileTimeToPhysfsTime` values. -/
structure StatEnv where
  wconvOk : Bool
  rcAttrs : Bool
  lastError : Nat
  dwFileAttributes : Nat
  nFileSizeHigh : Nat
  nFileSizeLow : Nat
  modtime : Int
  accesstime : Int
  createtime : Int
deriving DecidableEq

/-- Result of `__PHYSFS_platformStat`: the `int` return code (1/0), the value
written through the `exists` out-pointer (`none` when the code returned before
writing it, as on the conversion-failure path), the filled `PHYSFS_Stat`
record when the call succeeded, and the error slot after the call. -/
structure StatResult where
  rc : Nat
  fileExists : Option Bool
  stat : Option PHYSFS_Stat
  err : Option PhysfsErr
deriving DecidableEq

/-- `__PHYSFS_platformStat` (platform_windows.c:771-815): convert the filename
(bail `ERR_OUT_OF_MEMORY`, `exists` never written);
`rc = GetFileAttributesExW(...)`; `err = (!rc) ? GetLastError() : 0`;
`*exists = (err != ERROR_FILE_NOT_FOUND) && (err != ERROR_PATH_NOT_FOUND)`;
bail with `winApiStrErrorByNum(err)` and 0 when `!rc`; otherwise fill the
timestamps, classify by attribute priority (directory → directory/0,
offline-or-device → other/0, else regular with
`((PHYSFS_uint64) nFileSizeHigh << 32) | nFileSizeLow`), set `readonly` from
`FILE_ATTRIBUTE_READONLY`, and return 1. -/
def __PHYSFS_platformStat (env : StatEnv) (errIn : Option PhysfsErr) : StatResult :=
  if ¬ env.wconvOk then
    ⟨0, none, none, some PhysfsErr.outOfMemory⟩
  else
    let err := if ¬ env.rcAttrs then env.lastError else 0
    let ex := (err ≠ ERROR_FILE_NOT_FOUND) ∧ (err ≠ ERROR_PATH_NOT_FOUND)
    if ¬ env.rcAttrs then
      ⟨0, some (decide ex), none, some (PhysfsErr.winApi err)⟩
    else
      let tyAndSize :=
        if env.dwFileAttributes &&& FILE_ATTRIBUTE_DIRECTORY ≠ 0 then
          (PHYSFS_FileType.directory, (0 : Int))
        else if env.dwFileAttributes &&& (FILE_ATTRIBUTE_OFFLINE ||| FILE_ATTRIBUTE_DEVICE) ≠ 0 then
          (PHYSFS_FileType.other, (0 : Int))
        else
          (PHYSFS_FileType.regular,
           Int.ofNat ((env.nFileSizeHigh <<< 32) ||| env.nFileSizeLow))
      ⟨1, some (decide ex),
       some ⟨tyAndSize.2, env.modtime, env.accesstime, env.createtime, tyAndSize.1,
             decide (env.dwFileAttributes &&& FILE_ATTRIBUTE_READONLY ≠ 0)⟩,
       errIn⟩

/-! ## Directory enumerator (platform_windows.c:326-330, 355-419) -/

/-- `isSymlinkAttrs` (platform_windows.c:326-330). -/
def isSymlinkAttrs (attr : Nat) (tag : Nat) : Bool :=
  (attr &&& FILE_ATTRIBUTE_REPARSE_POINT ≠ 0) && (tag == PHYSFS_IO_REPARSE_TAG_SYMLINK)

/-- One `WIN32_FIND_DATAW` entry yielded by `FindFirstFileW`/`FindNextFileW`:
the wide filename (without terminator), `dwFileAttributes`, `dwReserved0`
(the reparse tag), plus the outcome of the `unicodeToUtf8Heap` allocation for
this entry. -/
structure FindEntry where
  cFileName : List Nat
  dwFileAttributes : Nat
  dwReserved0 : Nat
  utf8AllocOk : Bool
deriving DecidableEq

/-- Native outcomes driving `__PHYSFS_platformEnumerateFiles`: the
`__PHYSFS_smallAlloc` of the search pattern, the
`UTF8_TO_UNICODE_STACK_MACRO` conversion, whether `FindFirstFileW` returned a
valid handle, and the entries the find loop yields. -/
structure EnumEnv where
  searchAllocOk : Bool
  wconvOk : Bool
  findOk : Bool
  entries : List FindEntry
deriving DecidableEq

/-- Observable events of one enumeration run, in program order. -/
inductive EnumEv where
  | freeWSearch
  | freeSearch
  | allocName (name : List Nat)
  | callCb (userData : Nat) (origdir : List Nat) (name : List Nat)
  | freeName (name : List Nat)
  | findClose
deriving DecidableEq

/-- The loop body of `__PHYSFS_platformEnumerateFiles` (platform_windows.c:
396-416) for one entry: `continue` on `"."`, on `".."`, and — when
`omitSymLinks` is set — on symlink-like attributes; otherwise
`unicodeToUtf8Heap` the name and, if non-NULL, invoke the callback and free
the name.  The wide code unit 46 is `.`. -/
def enumStep (callbackdata : Nat) (origdir : List Nat) (omitSymLinks : Bool)
    (e : FindEntry) : List EnumEv :=
  if e.cFileName == [46] then []
  else if e.cFileName == [46, 46] then []
  else if omitSymLinks && isSymlinkAttrs e.dwFileAttributes e.dwReserved0 then []
  else if e.utf8AllocOk then
    let utf8 := PHYSFS_utf8FromUcs2 e.cFileName
    [EnumEv.allocName utf8, EnumEv.callCb callbackdata origdir utf8,
     EnumEv.freeName utf8]
  else []

/-- The find loop over all yielded entries. -/
def enumLoop (callbackdata : Nat) (origdir : List Nat) (omitSymLinks : Bool) :
    List FindEntry → List EnumEv
  | [] => []
  | e :: rest =>
    enumStep callbackdata origdir omitSymLinks e ++
    enumLoop callbackdata origdir omitSymLinks rest

/-- `__PHYSFS_platformEnumerateFiles` (platform_windows.c:355-419): allocate
and build the search pattern (silent return on allocation failure), convert
it (silent return on conversion failure), `FindFirstFileW`, free both pattern
buffers, silent return when the find handle is invalid, else run the loop and
`FindClose`.  Returns the event trace and the error slot after the call
(the error slot is never written by this function — it stays `errIn`). -/
def __PHYSFS_platformEnumerateFiles (env : EnumEnv) (omitSymLinks : Bool)
    (callbackdata : Nat) (origdir : List Nat) (errIn : Option PhysfsErr) :
    List EnumEv × Option PhysfsErr :=
  if ¬ env.searchAllocOk then ([], errIn)
  else if ¬ env.wconvOk then ([], errIn)
  else if ¬ env.findOk then ([EnumEv.freeWSearch, EnumEv.freeSearch], errIn)
  else
    ([EnumEv.freeWSearch, EnumEv.freeSearch] ++
     enumLoop callbackdata origdir omitSymLinks env.entries ++ [EnumEv.findClose],
     errIn)

/-- The callback invocations recorded in a trace, in order. -/
def cbCalls : List EnumEv → List (Nat × List Nat × List Nat)
  | [] => []
  | EnumEv.callCb u o n :: rest => (u, o, n) :: cbCalls rest
  | _ :: rest => cbCalls rest

/-- Every name buffer allocated in the trace is passed to exactly one callback
invocation and freed immediately after that invocation returns. -/
def namesFreedImmediately : List EnumEv → Bool
  | [] => true
  | EnumEv.allocName n :: EnumEv.callCb _ _ m :: EnumEv.freeName k :: rest =>
    (n == m) && (n == k) && namesFreedImmediately rest
  | EnumEv.allocName _ :: _ => false
  | _ :: rest => namesFreedImmediately rest

/-! ## Environment discovery and init (platform_windows.c:147-192, 311-317,
473-481) -/

/-- Native outcomes driving `determineUserDir` / `__PHYSFS_platformInit`:
`LoadLibraryA("userenv.dll")`, `GetProcAddress` of
`GetUserProfileDirectoryW`, `OpenProcessToken`, the `__PHYSFS_smallAlloc` of
the wide buffer, the second (buffer-filling) `pGetDir` call with the wide
profile path it writes on success, and the heap allocation inside
`unicodeToUtf8Heap`. -/
structure InitEnv where
  loadLibOk : Bool
  loadLibErr : Nat
  getProcOk : Bool
  getProcErr : Nat
  openTokenOk : Bool
  openTokenErr : Nat
  smallAllocOk : Bool
  getDirOk : Bool
  profileWide : List Nat
  convMallocOk : Bool
deriving DecidableEq

/-- `determineUserDir` (platform_windows.c:147-192), acting on the
module-scope `userDir` cache (a heap UTF-8 string or NULL): return 1 at once
when the cache is already set; bail 0 when `GetProcAddress` or
`OpenProcessToken` fails (recording the native message); otherwise probe for
the size, allocate the wide buffer (skipping the query silently when that
allocation fails), fill it with the second `pGetDir` call and, on its
success, set `userDir = unicodeToUtf8Heap(wstr)`; return 1 regardless of
whether the cache got filled.  Result: the `int` return value, the cache
afterwards, and the error slot afterwards. -/
def determineUserDir (env : InitEnv) (userDir : Option (List Nat))
    (errIn : Option PhysfsErr) :
    Nat × Option (List Nat) × Option PhysfsErr :=
  if userDir.isSome then (1, userDir, errIn)
  else if ¬ env.getProcOk then (0, userDir, some (PhysfsErr.winApi env.getProcErr))
  else if ¬ env.openTokenOk then (0, userDir, some (PhysfsErr.winApi env.openTokenErr))
  else if ¬ env.smallAllocOk then (1, userDir, errIn)
  else if env.getDirOk then
    let conv := unicodeToUtf8Heap (some env.profileWide) env.convMallocOk
    (1, conv.1, if conv.2.isSome then conv.2 else errIn)
  else (1, userDir, errIn)

/-- `__PHYSFS_platformInit` (platform_windows.c:473-481): bail 0 with the
native message when `LoadLibraryA("userenv.dll")` returns NULL; bail 0 when
`determineUserDir` returns 0; else return 1. -/
def __PHYSFS_platformInit (env : InitEnv) (userDir : Option (List Nat))
    (errIn : Option PhysfsErr) :
    Nat × Option (List Nat) × Option PhysfsErr :=
  if ¬ env.loadLibOk then (0, userDir, some (PhysfsErr.winApi env.loadLibErr))
  else
    let r := determineUserDir env userDir errIn
    if r.1 = 0 then (0, r.2.1, r.2.2)
    else (1, r.2.1, r.2.2)

/-- `__PHYSFS_platformGetUserDir` (platform_windows.c:311-317):
`allocator.Malloc(strlen(userDir) + 1)` — the cached `userDir` is
dereferenced unconditionally, so the function is modelled only on the domain
where the cache is non-NULL, `cached` being its contents; bail
`ERR_OUT_OF_MEMORY`/NULL on allocation failure, else `strcpy` the cache into
the fresh buffer.  Result: the returned string, the cache after the call
(the function never writes it), and the error slot. -/
def __PHYSFS_platformGetUserDir (cached : List Nat) (mallocOk : Bool)
    (errIn : Option PhysfsErr) :
    Option (List Nat) × List Nat × Option PhysfsErr :=
  if ¬ mallocOk then (none, cached, some PhysfsErr.outOfMemory)
  else (some cached, cached, errIn)

/-! ## Helper lemmas -/

/-- Shared helper: the source's `(high << 32) | low` reconstruction equals
`high * 2^32 + low` whenever `low` fits in 32 bits (as every `DWORD` does). -/
theorem shiftLeft_lor_eq_add (h l : Nat) (hl : l < 2 ^ 32) :
    (h <<< 32) ||| l = h * 2 ^ 32 + l := by
  rw [Nat.shiftLeft_eq, Nat.mul_comm]
  exact (Nat.mul_add_lt_is_or hl h).symm

/-! ## Claim theorems -/

/-- Claim C1: for every open file handle, `__PHYSFS_platformTell` and
`__PHYSFS_platformFileLength` reconstruct their 64-bit result as
`(high << 32) | low` (equal to `high * 2^32 + low`); when the native call
returns the invalid marker `0xFFFFFFFF` in the low half but `GetLastError()`
is `NO_ERROR`, both treat it as success and return the combined value; they
bail with the native error message and return `-1` exactly when the marker
comes together with a non-zero last-error. -/
theorem C1_tell_length_reconstruct (q : SplitQuery) (errIn : Option PhysfsErr)
    (hlow : q.low < 2 ^ 32) :
    ((q.low ≠ 0xFFFFFFFF ∨ q.lastError = 0) →
      __PHYSFS_platformTell q errIn = (Int.ofNat (q.high * 2 ^ 32 + q.low), errIn) ∧
      __PHYSFS_platformFileLength q errIn =
        (Int.ofNat (q.high * 2 ^ 32 + q.low), errIn)) ∧
    ((q.low = 0xFFFFFFFF ∧ q.lastError ≠ 0) →
      __PHYSFS_platformTell q errIn = (-1, some (PhysfsErr.winApi q.lastError)) ∧
      __PHYSFS_platformFileLength q errIn =
        (-1, some (PhysfsErr.winApi q.lastError))) := by
  constructor
  · intro hok
    have hcond : ¬ (q.low = PHYSFS_INVALID_SET_FILE_POINTER ∧ q.lastError ≠ NO_ERROR) := by
      simp only [PHYSFS_INVALID_SET_FILE_POINTER, NO_ERROR]
      rcases hok with hne | hz
      · exact fun hc => hne hc.1
      · exact fun hc => hc.2 hz
    constructor
    · simp only [__PHYSFS_platformTell, if_neg hcond, shiftLeft_lor_eq_add _ _ hlow]
    · simp only [__PHYSFS_platformFileLength, if_neg hcond, shiftLeft_lor_eq_add _ _ hlow]
  · intro hfail
    have hcond : q.low = PHYSFS_INVALID_SET_FILE_POINTER ∧ q.lastError ≠ NO_ERROR := by
      simpa [PHYSFS_INVALID_SET_FILE_POINTER, NO_ERROR] using hfail
    constructor
    · simp only [__PHYSFS_platformTell, if_pos hcond]
    · simp only [__PHYSFS_platformFileLength, if_pos hcond]

/-- Witness for C1: with the marker value `0xFFFFFFFF` in the low half, high
half `1`, and `GetLastError() = NO_ERROR`, `tell` succeeds and returns
`1 * 2^32 + 0xFFFFFFFF`. -/
theorem C1_tell_length_reconstruct_witness :
    __PHYSFS_platformTell ⟨0xFFFFFFFF, 1, 0⟩ none =
      (Int.ofNat (1 * 2 ^ 32 + 0xFFFFFFFF), none) ∧
    __PHYSFS_platformFileLength ⟨0xFFFFFFFF, 1, 0⟩ none =
      (Int.ofNat (1 * 2 ^ 32 + 0xFFFFFFFF), none) :=
  (C1_tell_length_reconstruct ⟨0xFFFFFFFF, 1, 0⟩ none (by decide)).1 (Or.inr rfl)

/-- Claim C2: for every requested transfer length exceeding `0xFFFFFFFF`,
`__PHYSFS_platformRead` and `__PHYSFS_platformWrite` bail with
`ERR_INVALID_ARGUMENT` and return `-1` before making any native transfer
call, so zero bytes are transferred — the length is never truncated to 32
bits. -/
theorem C2_large_length_rejected (n : XferNative) (len : Nat)
    (errIn : Option PhysfsErr) (hbig : 0xFFFFFFFF < len) :
    __PHYSFS_platformRead n len errIn =
      ⟨-1, 0, 0, some PhysfsErr.invalidArgument⟩ ∧
    __PHYSFS_platformWrite n len errIn =
      ⟨-1, 0, 0, some PhysfsErr.invalidArgument⟩ := by
  have hfit : ¬ __PHYSFS_ui64FitsAddressSpace len = true := by
    simp only [__PHYSFS_ui64FitsAddressSpace, decide_eq_true_eq]
    omega
  constructor
  · simp only [__PHYSFS_platformRead, if_pos hfit]
  · simp only [__PHYSFS_platformWrite, if_pos hfit]

/-- Witness for C2: a transfer of `2^32` bytes is rejected with
invalid-argument, zero native calls, zero bytes transferred. -/
theorem C2_large_length_rejected_witness :
    __PHYSFS_platformRead ⟨true, 0, 0⟩ 0x100000000 none =
      ⟨-1, 0, 0, some PhysfsErr.invalidArgument⟩ ∧
    __PHYSFS_platformWrite ⟨true, 0, 0⟩ 0x100000000 none =
      ⟨-1, 0, 0, some PhysfsErr.invalidArgument⟩ :=
  C2_large_length_rejected ⟨true, 0, 0⟩ 0x100000000 none (by decide)

/-- Claim C3: when `__PHYSFS_platformOpenAppend`'s post-open seek-to-end
fails, it closes the native file it just opened, frees the `WinApiFile`
struct, records the native error, and returns NULL; and every failing run of
`doOpen` or `__PHYSFS_platformOpenAppend` leaves the resource trace balanced
(every `CreateFileW` matched by a `CloseHandle`, every struct allocation by a
free), so a partially-initialized handle is never returned. -/
theorem C3_open_failure_releases_resources (env : OpenEnv) :
    (env.wconvOk = true → env.createOk = true → env.mallocOk = true →
      env.seekEndRc = PHYSFS_INVALID_SET_FILE_POINTER →
      __PHYSFS_platformOpenAppend env =
        (none,
         [OpenEv.createFile, OpenEv.mallocStruct, OpenEv.seekEnd,
          OpenEv.closeHandle, OpenEv.freeStruct],
         some (PhysfsErr.winApi env.seekErr))) ∧
    (∀ rdonly, (doOpen env rdonly).1 = none →
      openResourcesReleased (doOpen env rdonly).2.1 = true) ∧
    ((__PHYSFS_platformOpenAppend env).1 = none →
      openResourcesReleased (__PHYSFS_platformOpenAppend env).2.1 = true) := by
  obtain ⟨wc, co, ce, mo, rc, se⟩ := env
  refine ⟨?_, ?_, ?_⟩
  · rintro rfl rfl rfl rfl
    simp [__PHYSFS_platformOpenAppend, doOpen]
  · intro rdonly
    cases wc <;> cases co <;> cases mo <;>
      simp [doOpen, openResourcesReleased]
  · cases wc <;> cases co <;> cases mo <;>
      by_cases hrc : rc = PHYSFS_INVALID_SET_FILE_POINTER <;>
      simp [__PHYSFS_platformOpenAppend, doOpen, openResourcesReleased, hrc]

/-- Witness for C3: a successful open whose seek-to-end returns the invalid
marker (last-error 5) yields NULL, a balanced close/free trace, and the
recorded native error. -/
theorem C3_open_failure_releases_resources_witness :
    __PHYSFS_platformOpenAppend ⟨true, true, 0, true, 0xFFFFFFFF, 5⟩ =
      (none,
       [OpenEv.createFile, OpenEv.mallocStruct, OpenEv.seekEnd,
        OpenEv.closeHandle, OpenEv.freeStruct],
       some (PhysfsErr.winApi 5)) :=
  (C3_open_failure_releases_resources ⟨true, true, 0, true, 0xFFFFFFFF, 5⟩).1
    rfl rfl rfl rfl

/-- Claim C4: when the filename conversion succeeds, `__PHYSFS_platformStat`
writes `exists` from the specific native error alone — it is `false` exactly
when the attribute query failed with `ERROR_FILE_NOT_FOUND` or
`ERROR_PATH_NOT_FOUND` — and any other native failure makes the whole call
return 0 with the native error message (with the `exists` value then not to
be trusted), while a successful query returns 1. -/
theorem C4_stat_exists_from_specific_error (env : StatEnv)
    (errIn : Option PhysfsErr) (hconv : env.wconvOk = true) :
    (∃ b, (__PHYSFS_platformStat env errIn).fileExists = some b ∧
      (b = false ↔ env.rcAttrs = false ∧
        (env.lastError = ERROR_FILE_NOT_FOUND ∨
         env.lastError = ERROR_PATH_NOT_FOUND))) ∧
    (env.rcAttrs = false →
      (__PHYSFS_platformStat env errIn).rc = 0 ∧
      (__PHYSFS_platformStat env errIn).err =
        some (PhysfsErr.winApi env.lastError)) ∧
    (env.rcAttrs = true → (__PHYSFS_platformStat env errIn).rc = 1) := by
  obtain ⟨wc, rcA, le, attrs, hi, lo, mt, at', ct⟩ := env
  subst hconv
  cases rcA
  · refine ⟨⟨decide ((le ≠ ERROR_FILE_NOT_FOUND) ∧ (le ≠ ERROR_PATH_NOT_FOUND)), ?_, ?_⟩, ?_, ?_⟩
    · simp [__PHYSFS_platformStat]
    · simp only [ERROR_FILE_NOT_FOUND, ERROR_PATH_NOT_FOUND, decide_eq_false_iff_not]
      constructor
      · intro hnot
        refine ⟨by trivial, ?_⟩
        by_cases h2 : le = 2
        · exact Or.inl h2
        · by_cases h3 : le = 3
          · exact Or.inr h3
          · exact absurd ⟨h2, h3⟩ hnot
      · rintro ⟨-, h | h⟩ <;> intro hc <;> [exact hc.1 h; exact hc.2 h]
    · intro _
      constructor <;> simp [__PHYSFS_platformStat]
    · intro h
      exact absurd h (by simp)
  · refine ⟨⟨decide ((0 ≠ ERROR_FILE_NOT_FOUND) ∧ (0 ≠ ERROR_PATH_NOT_FOUND)), ?_, ?_⟩, ?_, ?_⟩
    · simp [__PHYSFS_platformStat]
    · simp [ERROR_FILE_NOT_FOUND, ERROR_PATH_NOT_FOUND]
    · intro h
      exact absurd h (by simp)
    · intro _
      simp [__PHYSFS_platformStat]

/-- Witness for C4: a query failing with `ERROR_FILE_NOT_FOUND` yields
`exists = false`, return code 0, and the native message for code 2. -/
theorem C4_stat_exists_from_specific_error_witness :
    (∃ b, (__PHYSFS_platformStat ⟨true, false, 2, 0, 0, 0, 0, 0, 0⟩ none).fileExists
        = some b ∧
      (b = false ↔ (false = false ∧ ((2 : Nat) = ERROR_FILE_NOT_FOUND ∨
        (2 : Nat) = ERROR_PATH_NOT_FOUND)))) ∧
    ((__PHYSFS_platformStat ⟨true, false, 2, 0, 0, 0, 0, 0, 0⟩ none).rc = 0 ∧
     (__PHYSFS_platformStat ⟨true, false, 2, 0, 0, 0, 0, 0, 0⟩ none).err =
       some (PhysfsErr.winApi 2)) := by
  have h := C4_stat_exists_from_specific_error ⟨true, false, 2, 0, 0, 0, 0, 0, 0⟩ none rfl
  exact ⟨h.1, h.2.1 rfl⟩

/-- Claim C5: when the attribute query succeeds, `__PHYSFS_platformStat`
classifies by attribute priority — directory attribute first (type directory,
size 0), then offline-or-device (type other, size 0), else regular with the
size reconstructed as `(nFileSizeHigh << 32) | nFileSizeLow`, i.e.
`high * 2^32 + low` — and sets `readonly` exactly when the native read-only
attribute bit is set. -/
theorem C5_stat_classification (env : StatEnv) (errIn : Option PhysfsErr)
    (hconv : env.wconvOk = true) (hrc : env.rcAttrs = true)
    (hlow : env.nFileSizeLow < 2 ^ 32) :
    ∃ st, (__PHYSFS_platformStat env errIn).stat = some st ∧
      (env.dwFileAttributes &&& FILE_ATTRIBUTE_DIRECTORY ≠ 0 →
        st.filetype = PHYSFS_FileType.directory ∧ st.filesize = 0) ∧
      (env.dwFileAttributes &&& FILE_ATTRIBUTE_DIRECTORY = 0 →
       env.dwFileAttributes &&& (FILE_ATTRIBUTE_OFFLINE ||| FILE_ATTRIBUTE_DEVICE) ≠ 0 →
        st.filetype = PHYSFS_FileType.other ∧ st.filesize = 0) ∧
      (env.dwFileAttributes &&& FILE_ATTRIBUTE_DIRECTORY = 0 →
       env.dwFileAttributes &&& (FILE_ATTRIBUTE_OFFLINE ||| FILE_ATTRIBUTE_DEVICE) = 0 →
        st.filetype = PHYSFS_FileType.regular ∧
        st.filesize = Int.ofNat (env.nFileSizeHigh * 2 ^ 32 + env.nFileSizeLow)) ∧
      (st.readonly = true ↔ env.dwFileAttributes &&& FILE_ATTRIBUTE_READONLY ≠ 0) := by
  obtain ⟨wc, rcA, le, attrs, hi, lo, mt, at', ct⟩ := env
  subst hconv
  subst hrc
  by_cases hdir : attrs &&& FILE_ATTRIBUTE_DIRECTORY ≠ 0
  · refine ⟨⟨0, mt, at', ct, PHYSFS_FileType.directory,
        decide (attrs &&& FILE_ATTRIBUTE_READONLY ≠ 0)⟩, ?_, ?_, ?_, ?_, ?_⟩
    · simp [__PHYSFS_platformStat, if_pos hdir]
    · intro _
      exact ⟨rfl, rfl⟩
    · intro hcontra _
      exact absurd hcontra hdir
    · intro hcontra _
      exact absurd hcontra hdir
    · simp
  · by_cases hdev : attrs &&& (FILE_ATTRIBUTE_OFFLINE ||| FILE_ATTRIBUTE_DEVICE) ≠ 0
    · refine ⟨⟨0, mt, at', ct, PHYSFS_FileType.other,
          decide (attrs &&& FILE_ATTRIBUTE_READONLY ≠ 0)⟩, ?_, ?_, ?_, ?_, ?_⟩
      · simp [__PHYSFS_platformStat, if_neg hdir, if_pos hdev]
      · intro hcontra
        exact absurd hcontra hdir
      · intro _ _
        exact ⟨rfl, rfl⟩
      · intro _ hcontra
        exact absurd hcontra hdev
      · simp
    · refine ⟨⟨Int.ofNat ((hi <<< 32) ||| lo), mt, at', ct, PHYSFS_FileType.regular,
          decide (attrs &&& FILE_ATTRIBUTE_READONLY ≠ 0)⟩, ?_, ?_, ?_, ?_, ?_⟩
      · simp [__PHYSFS_platformStat, if_neg hdir, if_neg hdev]
      · intro hcontra
        exact absurd hcontra hdir
      · intro _ hcontra
        exact absurd hcontra hdev
      · intro _ _
        refine ⟨rfl, ?_⟩
        simp only [shiftLeft_lor_eq_add hi lo hlow]
      · simp

/-- Witness for C5: a regular read-only file with size halves `high = 1`,
`low = 5` is classified regular with size `2^32 + 5` and `readonly = true`. -/
theorem C5_stat_classification_witness :
    ∃ st,
      (__PHYSFS_platformStat ⟨true, true, 0, 1, 1, 5, 10, 11, 12⟩ none).stat = some st ∧
      st.filetype = PHYSFS_FileType.regular ∧
      st.filesize = Int.ofNat (1 * 2 ^ 32 + 5) ∧
      st.readonly = true := by
  obtain ⟨st, hst, -, -, hreg, hro⟩ :=
    C5_stat_classification ⟨true, true, 0, 1, 1, 5, 10, 11, 12⟩ none rfl rfl (by decide)
  obtain ⟨hty, hsz⟩ := hreg (by decide) (by decide)
  exact ⟨st, hst, hty, hsz, hro.mpr (by decide)⟩

/-- Each wide code unit encodes to at most three UTF-8 bytes (so the
`4*len+1` destination buffer of `unicodeToUtf8Heap` can never truncate). -/
theorem ucs2CharToUtf8_length_le (c : Nat) : (ucs2CharToUtf8 c).length ≤ 3 := by
  unfold ucs2CharToUtf8
  split
  · simp
  · split <;> simp

/-- The UTF-8 encoding of a wide string takes at most `3 * len` bytes. -/
theorem utf8FromUcs2_length_le (w : List Nat) :
    (PHYSFS_utf8FromUcs2 w).length ≤ 3 * w.length := by
  induction w with
  | nil => simp [PHYSFS_utf8FromUcs2]
  | cons c rest ih =>
    have h := ucs2CharToUtf8_length_le c
    simp only [PHYSFS_utf8FromUcs2, List.length_append, List.length_cons]
    omega

/-- Round trip: re-encoding any successfully decoded byte string gives back
the original bytes, and the decoded wide string is no longer than the byte
string (so the `strlen+1`-code-unit stack buffer can never truncate). -/
theorem utf8ToUcs2_roundtrip (s : List Nat) :
    ∀ w, PHYSFS_utf8ToUcs2 s = some w →
      PHYSFS_utf8FromUcs2 w = s ∧ w.length ≤ s.length := by
  induction s using PHYSFS_utf8ToUcs2.induct with
  | case1 =>
    intro w h
    simp only [PHYSFS_utf8ToUcs2, Option.some.injEq] at h
    subst h
    exact ⟨rfl, by simp⟩
  | case2 b rest hb ih =>
    intro w h
    rw [PHYSFS_utf8ToUcs2.eq_def] at h
    simp only [if_pos hb, Option.map_eq_some'] at h
    obtain ⟨w', hw', rfl⟩ := h
    obtain ⟨henc, hlen⟩ := ih w' hw'
    refine ⟨?_, by simp; omega⟩
    simp [PHYSFS_utf8FromUcs2, ucs2CharToUtf8, hb, henc]
  | case3 b hb =>
    intro w h
    rw [PHYSFS_utf8ToUcs2.eq_def] at h
    simp only [if_neg hb] at h
    exact absurd h (by simp)
  | case4 b hb b2 rest2 hcond ih =>
    intro w h
    rw [PHYSFS_utf8ToUcs2.eq_def] at h
    simp only [if_neg hb, if_pos hcond, Option.map_eq_some'] at h
    obtain ⟨w', hw', rfl⟩ := h
    obtain ⟨henc, hlen⟩ := ih w' hw'
    obtain ⟨h1, h2, h3, h4⟩ := hcond
    refine ⟨?_, by simp; omega⟩
    have hc1 : ¬ ((b - 0xC0) * 64 + (b2 - 0x80)) < 0x80 := by omega
    have hc2 : ((b - 0xC0) * 64 + (b2 - 0x80)) < 0x800 := by omega
    have e1 : 0xC0 + ((b - 0xC0) * 64 + (b2 - 0x80)) / 64 = b := by omega
    have e2 : 0x80 + ((b - 0xC0) * 64 + (b2 - 0x80)) % 64 = b2 := by omega
    simp [PHYSFS_utf8FromUcs2, ucs2CharToUtf8, hc1, hc2, e1, e2, henc]
  | case5 b hb b2 hcond =>
    intro w h
    rw [PHYSFS_utf8ToUcs2.eq_def] at h
    simp only [if_neg hb, if_neg hcond] at h
    exact absurd h (by simp)
  | case6 b hb b2 hcond2 b3 rest3 hcond ih =>
    intro w h
    rw [PHYSFS_utf8ToUcs2.eq_def] at h
    simp only [if_neg hb, if_neg hcond2, if_pos hcond, Option.map_eq_some'] at h
    obtain ⟨w', hw', rfl⟩ := h
    obtain ⟨henc, hlen⟩ := ih w' hw'
    obtain ⟨h1, h2, h3, h4, h5, h6, h7⟩ := hcond
    refine ⟨?_, by simp; omega⟩
    have hc1 : ¬ ((b - 0xE0) * 4096 + (b2 - 0x80) * 64 + (b3 - 0x80)) < 0x80 := by omega
    have hc2 : ¬ ((b - 0xE0) * 4096 + (b2 - 0x80) * 64 + (b3 - 0x80)) < 0x800 := by omega
    have e1 : 0xE0 + ((b - 0xE0) * 4096 + (b2 - 0x80) * 64 + (b3 - 0x80)) / 4096 = b := by
      omega
    have e2 : 0x80 + (((b - 0xE0) * 4096 + (b2 - 0x80) * 64 + (b3 - 0x80)) / 64) % 64 = b2 := by
      omega
    have e3 : 0x80 + ((b - 0xE0) * 4096 + (b2 - 0x80) * 64 + (b3 - 0x80)) % 64 = b3 := by
      omega
    simp [PHYSFS_utf8FromUcs2, ucs2CharToUtf8, hc1, hc2, e1, e2, e3, henc]
  | case7 b hb b2 hcond2 b3 rest3 hcond =>
    intro w h
    rw [PHYSFS_utf8ToUcs2.eq_def] at h
    simp only [if_neg hb, if_neg hcond2, if_neg hcond] at h
    exact absurd h (by simp)

/-- Claim C8: for every narrow UTF-8 string representable in the native wide
encoding (i.e. every `s` with `PHYSFS_utf8ToUcs2 s = some w`), converting to
the wide encoding and back through the source's heap conversion yields `s`
unchanged; `UTF8_TO_UNICODE_STACK_MACRO` maps a NULL input to a NULL output;
and the buffers are sized so no truncation occurs: the wide result needs at
most `length s + 1` code units and the narrow result at most
`4 * wide length + 1` bytes. -/
theorem C8_encoding_roundtrip (s w : List Nat)
    (h : PHYSFS_utf8ToUcs2 s = some w) :
    (UTF8_TO_UNICODE_STACK_MACRO (some s) = some w ∧
     unicodeToUtf8Heap (some w) true = (some s, none)) ∧
    UTF8_TO_UNICODE_STACK_MACRO none = none ∧
    w.length + 1 ≤ s.length + 1 ∧
    (PHYSFS_utf8FromUcs2 w).length + 1 ≤ 4 * w.length + 1 := by
  obtain ⟨henc, hlen⟩ := utf8ToUcs2_roundtrip s w h
  refine ⟨⟨h, ?_⟩, rfl, by omega, ?_⟩
  · simp [unicodeToUtf8Heap, henc]
  · have := utf8FromUcs2_length_le w
    omega

/-- Witness for C8: the three-character string "A é €" in UTF-8
(`41 C3 A9 E2 82 AC`) decodes to the wide string `[0x41, 0xE9, 0x20AC]` and
re-encodes to the same bytes. -/
theorem C8_encoding_roundtrip_witness :
    UTF8_TO_UNICODE_STACK_MACRO (some [0x41, 0xC3, 0xA9, 0xE2, 0x82, 0xAC]) =
      some [0x41, 0xE9, 0x20AC] ∧
    unicodeToUtf8Heap (some [0x41, 0xE9, 0x20AC]) true =
      (some [0x41, 0xC3, 0xA9, 0xE2, 0x82, 0xAC], none) :=
  (C8_encoding_roundtrip [0x41, 0xC3, 0xA9, 0xE2, 0x82, 0xAC] [0x41, 0xE9, 0x20AC]
    (by decide)).1

/-- `cbCalls` distributes over trace concatenation. -/
theorem cbCalls_append (a b : List EnumEv) :
    cbCalls (a ++ b) = cbCalls a ++ cbCalls b := by
  induction a with
  | nil => rfl
  | cons e rest ih =>
    cases e <;> simp only [List.cons_append, cbCalls, List.append_eq, ih]

/-- The callback invocations of the find loop are exactly one per entry that
is neither `"."` nor `".."` nor (when `omitSymLinks` is set) symlink-like, in
order, with the converted name — provided every name conversion allocation
succeeds. -/
theorem cbCalls_enumLoop (c : Nat) (o : List Nat) (om : Bool)
    (es : List FindEntry) (hall : ∀ e ∈ es, e.utf8AllocOk = true) :
    cbCalls (enumLoop c o om es) =
      (es.filter (fun e =>
          !(e.cFileName == [46]) && !(e.cFileName == [46, 46]) &&
          !(om && isSymlinkAttrs e.dwFileAttributes e.dwReserved0))).map
        (fun e => (c, o, PHYSFS_utf8FromUcs2 e.cFileName)) := by
  induction es with
  | nil => rfl
  | cons e rest ih =>
    have he : e.utf8AllocOk = true := hall e (List.mem_cons_self e rest)
    have hrest : ∀ x ∈ rest, x.utf8AllocOk = true :=
      fun x hx => hall x (List.mem_cons_of_mem e hx)
    rw [enumLoop, cbCalls_append, ih hrest, List.filter_cons]
    by_cases h1 : e.cFileName = [46]
    · simp [enumStep, h1, cbCalls]
    · by_cases h2 : e.cFileName = [46, 46]
      · simp [enumStep, h1, h2, cbCalls]
      · by_cases h3 : om && isSymlinkAttrs e.dwFileAttributes e.dwReserved0
        · simp [enumStep, h1, h2, h3, cbCalls]
        · simp [enumStep, h1, h2, h3, he, cbCalls]

/-- A complete alloc/call/free triple at the head of a trace is consumed by
`namesFreedImmediately`. -/
theorem namesFreedImmediately_triple (n : List Nat) (u : Nat) (o : List Nat)
    (l : List EnumEv) :
    namesFreedImmediately
      (EnumEv.allocName n :: EnumEv.callCb u o n :: EnumEv.freeName n :: l) =
      namesFreedImmediately l := by
  show (((n == n) && (n == n)) && namesFreedImmediately l) = namesFreedImmediately l
  simp

/-- One find-loop iteration leaves the freed-immediately property of the
remaining trace unchanged. -/
theorem namesFreedImmediately_step (c : Nat) (o : List Nat) (om : Bool)
    (e : FindEntry) (t : List EnumEv) :
    namesFreedImmediately (enumStep c o om e ++ t) = namesFreedImmediately t := by
  rw [enumStep]
  by_cases h1 : (e.cFileName == [46]) = true
  · rw [if_pos h1, List.nil_append]
  · rw [if_neg h1]
    by_cases h2 : (e.cFileName == [46, 46]) = true
    · rw [if_pos h2, List.nil_append]
    · rw [if_neg h2]
      by_cases h3 : (om && isSymlinkAttrs e.dwFileAttributes e.dwReserved0) = true
      · rw [if_pos h3, List.nil_append]
      · rw [if_neg h3]
        by_cases h4 : e.utf8AllocOk = true
        · rw [if_pos h4]
          simp only [List.cons_append, List.nil_append]
          exact namesFreedImmediately_triple _ _ _ _
        · rw [if_neg h4, List.nil_append]

/-- The find loop frees every converted name right after its callback
returns, whatever follows the loop in the trace. -/
theorem namesFreedImmediately_enumLoop (c : Nat) (o : List Nat) (om : Bool)
    (es : List FindEntry) (t : List EnumEv) :
    namesFreedImmediately (enumLoop c o om es ++ t) = namesFreedImmediately t := by
  induction es with
  | nil => rfl
  | cons e rest ih =>
    rw [enumLoop, List.append_assoc, namesFreedImmediately_step]
    exact ih

/-- Claim C6: for every directory whose native enumeration opens
successfully and whose per-entry name conversions all succeed,
`__PHYSFS_platformEnumerateFiles` skips exactly the `"."` and `".."` entries,
additionally skips reparse/symlink-like entries exactly when `omitSymLinks`
is set, invokes the callback once per remaining entry with
`(callbackdata, origdir, convertedName)` in order, and frees each converted
name immediately after its callback returns. -/
theorem C6_enumerate_skips_and_calls (env : EnumEnv) (omitSymLinks : Bool)
    (callbackdata : Nat) (origdir : List Nat) (errIn : Option PhysfsErr)
    (hs : env.searchAllocOk = true) (hw : env.wconvOk = true)
    (hf : env.findOk = true)
    (hall : ∀ e ∈ env.entries, e.utf8AllocOk = true) :
    cbCalls
        (__PHYSFS_platformEnumerateFiles env omitSymLinks callbackdata origdir errIn).1 =
      (env.entries.filter (fun e =>
          !(e.cFileName == [46]) && !(e.cFileName == [46, 46]) &&
          !(omitSymLinks && isSymlinkAttrs e.dwFileAttributes e.dwReserved0))).map
        (fun e => (callbackdata, origdir, PHYSFS_utf8FromUcs2 e.cFileName)) ∧
    namesFreedImmediately
        (__PHYSFS_platformEnumerateFiles env omitSymLinks callbackdata origdir errIn).1 =
      true := by
  have htr :
      (__PHYSFS_platformEnumerateFiles env omitSymLinks callbackdata origdir errIn).1 =
        [EnumEv.freeWSearch, EnumEv.freeSearch] ++
          enumLoop callbackdata origdir omitSymLinks env.entries ++ [EnumEv.findClose] := by
    simp [__PHYSFS_platformEnumerateFiles, hs, hw, hf]
  constructor
  · rw [htr, cbCalls_append, cbCalls_append, cbCalls_enumLoop _ _ _ _ hall]
    simp [cbCalls]
  · rw [htr]
    show namesFreedImmediately
      (EnumEv.freeWSearch :: EnumEv.freeSearch ::
        (enumLoop callbackdata origdir omitSymLinks env.entries ++ [EnumEv.findClose])) = true
    rw [show ∀ l, namesFreedImmediately
          (EnumEv.freeWSearch :: EnumEv.freeSearch :: l) = namesFreedImmediately l
        from fun l => rfl]
    rw [namesFreedImmediately_enumLoop]
    rfl

/-- Witness for C6: enumerating a directory yielding `"."`, `".."`, a symlink
`"s"` and a plain file `"a"` with `omitSymLinks` set invokes the callback
exactly once, for `"a"`. -/
theorem C6_enumerate_skips_and_calls_witness :
    cbCalls
        (__PHYSFS_platformEnumerateFiles
          ⟨true, true, true,
           [⟨[46], 0x10, 0, true⟩, ⟨[46, 46], 0x10, 0, true⟩,
            ⟨[115], 0x400, 0xA000000C, true⟩, ⟨[97], 0, 0, true⟩]⟩
          true 7 [100] none).1 = [(7, [100], [97])] ∧
    namesFreedImmediately
        (__PHYSFS_platformEnumerateFiles
          ⟨true, true, true,
           [⟨[46], 0x10, 0, true⟩, ⟨[46, 46], 0x10, 0, true⟩,
            ⟨[115], 0x400, 0xA000000C, true⟩, ⟨[97], 0, 0, true⟩]⟩
          true 7 [100] none).1 = true := by
  have h := C6_enumerate_skips_and_calls
    ⟨true, true, true,
     [⟨[46], 0x10, 0, true⟩, ⟨[46, 46], 0x10, 0, true⟩,
      ⟨[115], 0x400, 0xA000000C, true⟩, ⟨[97], 0, 0, true⟩]⟩
    true 7 [100] none rfl rfl rfl (by decide)
  exact ⟨h.1.trans (by decide), h.2⟩

/-- Claim C7: when the search-pattern buffers were built but `FindFirstFileW`
fails, `__PHYSFS_platformEnumerateFiles` returns with zero callback
invocations and the error slot untouched — indistinguishable from an empty
directory — having freed both search-pattern buffers before returning. -/
theorem C7_enumerate_open_failure_silent (env : EnumEnv) (omitSymLinks : Bool)
    (callbackdata : Nat) (origdir : List Nat) (errIn : Option PhysfsErr)
    (hs : env.searchAllocOk = true) (hw : env.wconvOk = true)
    (hf : env.findOk = false) :
    __PHYSFS_platformEnumerateFiles env omitSymLinks callbackdata origdir errIn =
      ([EnumEv.freeWSearch, EnumEv.freeSearch], errIn) ∧
    cbCalls
        (__PHYSFS_platformEnumerateFiles env omitSymLinks callbackdata origdir errIn).1 =
      [] := by
  have h : __PHYSFS_platformEnumerateFiles env omitSymLinks callbackdata origdir errIn =
      ([EnumEv.freeWSearch, EnumEv.freeSearch], errIn) := by
    simp [__PHYSFS_platformEnumerateFiles, hs, hw, hf]
  exact ⟨h, by rw [h]; rfl⟩

/-- Witness for C7: a failing `FindFirstFileW` yields the two buffer frees,
no callbacks, and an unchanged error slot. -/
theorem C7_enumerate_open_failure_silent_witness :
    __PHYSFS_platformEnumerateFiles ⟨true, true, false, []⟩ false 7 [100]
        (some (PhysfsErr.winApi 5)) =
      ([EnumEv.freeWSearch, EnumEv.freeSearch], some (PhysfsErr.winApi 5)) :=
  (C7_enumerate_open_failure_silent ⟨true, true, false, []⟩ false 7 [100]
    (some (PhysfsErr.winApi 5)) rfl rfl rfl).1

/-- Claim C9: with `userenv.dll` loaded, the entry point resolved and the
process token opened, a failure of the profile-directory query — the wide
buffer allocation failing, the filling `pGetDir` call failing, or the
narrow conversion failing — leaves the process-wide `userDir` cache empty
and is non-fatal: `determineUserDir` still returns 1 and
`__PHYSFS_platformInit` still returns 1. -/
theorem C9_userdir_failure_nonfatal (env : InitEnv) (errIn : Option PhysfsErr)
    (hload : env.loadLibOk = true) (hproc : env.getProcOk = true)
    (htok : env.openTokenOk = true)
    (hfail : env.smallAllocOk = false ∨ env.getDirOk = false ∨
             env.convMallocOk = false) :
    (determineUserDir env none errIn).1 = 1 ∧
    (determineUserDir env none errIn).2.1 = none ∧
    (__PHYSFS_platformInit env none errIn).1 = 1 ∧
    (__PHYSFS_platformInit env none errIn).2.1 = none := by
  have hd : (determineUserDir env none errIn).1 = 1 ∧
      (determineUserDir env none errIn).2.1 = none := by
    rcases hfail with hf | hf | hf
    · simp [determineUserDir, hproc, htok, hf]
    · by_cases ha : env.smallAllocOk = true
      · simp [determineUserDir, hproc, htok, ha, hf]
      · simp [determineUserDir, hproc, htok,
          (Bool.not_eq_true _).mp ha]
    · by_cases ha : env.smallAllocOk = true
      · by_cases hg : env.getDirOk = true
        · simp [determineUserDir, hproc, htok, ha, hg, unicodeToUtf8Heap, hf]
        · simp [determineUserDir, hproc, htok, ha,
            (Bool.not_eq_true _).mp hg]
      · simp [determineUserDir, hproc, htok,
          (Bool.not_eq_true _).mp ha]
  refine ⟨hd.1, hd.2, ?_, ?_⟩
  · simp [__PHYSFS_platformInit, hload, hd.1]
  · simp [__PHYSFS_platformInit, hload, hd.1, hd.2]

/-- Witness for C9: the filling profile query failing (everything before it
succeeding) leaves the cache empty while `determineUserDir` and
`__PHYSFS_platformInit` both return 1. -/
theorem C9_userdir_failure_nonfatal_witness :
    (determineUserDir ⟨true, 0, true, 0, true, 0, true, false, [], true⟩ none none).1
        = 1 ∧
    (determineUserDir ⟨true, 0, true, 0, true, 0, true, false, [], true⟩ none none).2.1
        = none ∧
    (__PHYSFS_platformInit ⟨true, 0, true, 0, true, 0, true, false, [], true⟩ none none).1
        = 1 ∧
    (__PHYSFS_platformInit ⟨true, 0, true, 0, true, 0, true, false, [], true⟩ none none).2.1
        = none :=
  C9_userdir_failure_nonfatal ⟨true, 0, true, 0, true, 0, true, false, [], true⟩ none
    rfl rfl rfl (Or.inr (Or.inl rfl))

/-- Claim C10: `__PHYSFS_platformGetUserDir` reads the process-wide cache
unconditionally (it is modelled only on the non-NULL domain, `cached` its
contents); under that precondition every call either returns a fresh string
equal byte-for-byte to the cache, leaving the error slot alone, or returns
NULL with an out-of-memory error, and the cached string itself is unchanged
in both cases. -/
theorem C10_getUserDir_copies_cache (cached : List Nat) (mallocOk : Bool)
    (errIn : Option PhysfsErr) :
    (((__PHYSFS_platformGetUserDir cached mallocOk errIn).1 = some cached ∧
      (__PHYSFS_platformGetUserDir cached mallocOk errIn).2.2 = errIn) ∨
     ((__PHYSFS_platformGetUserDir cached mallocOk errIn).1 = none ∧
      (__PHYSFS_platformGetUserDir cached mallocOk errIn).2.2 =
        some PhysfsErr.outOfMemory)) ∧
    (__PHYSFS_platformGetUserDir cached mallocOk errIn).2.1 = cached := by
  cases mallocOk
  · exact ⟨Or.inr ⟨rfl, rfl⟩, rfl⟩
  · exact ⟨Or.inl ⟨rfl, rfl⟩, rfl⟩

end PhysfsWin
